import Mathlib

/-!
# Verification of the askaosus conversation engagement engine

Shallow embedding of the message-relevance and context-assembly logic of
`src/src/bot.py` (class `AskaosusBot`): mention detection
(`_check_message_mentions_bot`), mention stripping and reply cleaning
(`_clean_reply_content` and the inline `re.sub` loops of `_should_respond`),
bounded reply-chain traversal (`_get_thread_context`), the engagement
decision (`_should_respond`) and the rate/recency gating of
`message_callback`.

Text is modelled over `List Char` / `String`; the repository's inputs are
ASCII, so Python's Unicode-aware `str.lower`, `str.strip` and the regex
classes `\s`, `\w` are modelled by their ASCII restrictions.
-/

namespace Askaosus

/-- Python whitespace for `str.strip`, `str.split()` and the regex class
`\s`: space, tab, newline, carriage return, vertical tab, form feed. -/
def isPySpace (c : Char) : Bool :=
  c == ' ' || c == '\t' || c == '\n' || c == '\r' ||
  c.toNat == 11 || c.toNat == 12

/-- Remove leading and trailing whitespace from a character list. -/
def stripL (l : List Char) : List Char :=
  ((l.dropWhile isPySpace).reverse.dropWhile isPySpace).reverse

/-- Python `str.strip()` (ASCII whitespace model). -/
def pyStrip (s : String) : String :=
  ⟨stripL s.data⟩

/-- Python `str.lower()` (ASCII model). -/
def toLowerS (s : String) : String :=
  ⟨s.data.map Char.toLower⟩

/-- `startsWithL l p`: the list `l` starts with the pattern `p`. -/
def startsWithL : List Char → List Char → Bool
  | _, [] => true
  | [], _ :: _ => false
  | a :: as, b :: bs => a == b && startsWithL as bs

/-- `containsSubL p l`: the pattern `p` occurs contiguously in `l`
(Python's `p in l` on strings; the empty pattern always occurs). -/
def containsSubL (p : List Char) : List Char → Bool
  | [] => p.isEmpty
  | a :: as => startsWithL (a :: as) p || containsSubL p as

/-- Python `sub in s` for strings. -/
def strContains (s sub : String) : Bool :=
  containsSubL sub.data s.data

/-- Split a character list at every newline, mirroring Python
`str.split(chr(10))` (an empty input yields one empty line). -/
def splitLinesAux (acc : List Char) : List Char → List (List Char)
  | [] => [acc.reverse]
  | c :: cs =>
    if c == '\n' then acc.reverse :: splitLinesAux [] cs
    else splitLinesAux (c :: acc) cs

/-- The line-splitting entry point on strings. -/
def splitLines (s : String) : List (List Char) :=
  splitLinesAux [] s.data

/-- The quote-line filter shared by `_check_message_mentions_bot` and
`_clean_reply_content`: split into lines, drop every line whose stripped
form starts with the quote marker, join with newlines and strip. -/
def dropQuoteLines (s : String) : String :=
  let kept := (splitLines s).filter fun ln => !(startsWithL (stripL ln) ['>', ' '])
  pyStrip ⟨List.intercalate ['\n'] kept⟩

/-- Python `sep.join(parts)`. -/
def joinSep (sep : String) : List String → String
  | [] => ""
  | [a] => a
  | a :: b :: t => a ++ sep ++ joinSep sep (b :: t)

/-- Length of a `<br\s*/?>` tag at the head of the list, if one starts
there (the regex `<br\s*/?>` of `_check_message_mentions_bot`, matched
case-insensitively). -/
def brLen (l : List Char) : Option Nat :=
  match l with
  | '<' :: b :: r :: rest =>
    if b.toLower == 'b' && r.toLower == 'r' then
      let ws := (rest.takeWhile isPySpace).length
      match rest.drop ws with
      | '/' :: '>' :: _ => some (3 + ws + 2)
      | '>' :: _ => some (3 + ws + 1)
      | _ => none
    else none
  | _ => none

/-- Fuelled scanner for `re.sub(r'<br\s*/?>', chr(10), s)`: every `<br>`
tag is replaced by a newline.  Each step consumes at least one character,
so fuel equal to the input length never runs out. -/
def stripBrAux : Nat → List Char → List Char
  | 0, l => l
  | _, [] => []
  | fuel + 1, c :: cs =>
    match brLen (c :: cs) with
    | some n => '\n' :: stripBrAux fuel ((c :: cs).drop n)
    | none => c :: stripBrAux fuel cs

/-- `re.sub(r'<br\s*/?>', chr(10), s, flags=re.IGNORECASE)`. -/
def stripBrTags (s : String) : String :=
  ⟨stripBrAux s.data.length s.data⟩

/-- Length of an HTML tag `<[^>]+>` at the head of the list, if one
starts there. -/
def tagLen (l : List Char) : Option Nat :=
  match l with
  | '<' :: cs =>
    let t := cs.takeWhile fun c => c != '>'
    if t.length > 0 then
      match cs.drop t.length with
      | '>' :: _ => some (t.length + 2)
      | _ => none
    else none
  | _ => none

/-- Fuelled scanner for `re.sub(r'<[^>]+>', '', s)`: every remaining tag
is deleted. -/
def stripTagsAux : Nat → List Char → List Char
  | 0, l => l
  | _, [] => []
  | fuel + 1, c :: cs =>
    match tagLen (c :: cs) with
    | some n => stripTagsAux fuel ((c :: cs).drop n)
    | none => c :: stripTagsAux fuel cs

/-- `re.sub(r'<[^>]+>', '', s)`. -/
def stripHtmlTags (s : String) : String :=
  ⟨stripTagsAux s.data.length s.data⟩

/-- Modelled from the source's call to Python `html.unescape`, restricted
to the named character references the repository exercises
(`&amp;` `&lt;` `&gt;` `&quot;`); all other text passes through
unchanged. -/
def htmlUnescapeAux : Nat → List Char → List Char
  | 0, l => l
  | _, [] => []
  | fuel + 1, c :: cs =>
    if c == '&' then
      if startsWithL cs ['a', 'm', 'p', ';'] then
        '&' :: htmlUnescapeAux fuel (cs.drop 4)
      else if startsWithL cs ['l', 't', ';'] then
        '<' :: htmlUnescapeAux fuel (cs.drop 3)
      else if startsWithL cs ['g', 't', ';'] then
        '>' :: htmlUnescapeAux fuel (cs.drop 3)
      else if startsWithL cs ['q', 'u', 'o', 't', ';'] then
        '"' :: htmlUnescapeAux fuel (cs.drop 5)
      else c :: htmlUnescapeAux fuel cs
    else c :: htmlUnescapeAux fuel cs

/-- `html.unescape` (restricted model, see `htmlUnescapeAux`). -/
def htmlUnescape (s : String) : String :=
  ⟨htmlUnescapeAux s.data.length s.data⟩

/-- The formatted-body cleanup of `_check_message_mentions_bot`: replace
`<br>` tags by newlines, delete remaining tags, decode entities, strip. -/
def cleanFormatted (fb : String) : String :=
  pyStrip (htmlUnescape (stripHtmlTags (stripBrTags fb)))

/-- `_check_message_mentions_bot(message_body, bot_mentions, event)`
from src/src/bot.py: prefer the cleaned `formatted_body` when present and
non-empty, otherwise filter quoted lines out of the raw body; then test
each configured mention by case-insensitive substring containment. -/
def checkMessageMentionsBot (messageBody : String) (botMentions : List String)
    (formattedBody : Option String) : Bool :=
  let contentToCheck :=
    match formattedBody with
    | some fb =>
      if fb != "" then
        let fc := cleanFormatted fb
        if fc != "" then fc else messageBody
      else messageBody
    | none => messageBody
  let contentToCheck :=
    if contentToCheck == messageBody then dropQuoteLines messageBody
    else contentToCheck
  let contentLower := toLowerS contentToCheck
  botMentions.any fun m => strContains contentLower (toLowerS m)

/-- Word characters of the regex class `\w` (ASCII model):
letters, digits and underscore. -/
def isWordChar (c : Char) : Bool :=
  c.isAlphanum || c == '_'

/-- Word-character status of the character before / after the scanned
window; `none` stands for the edge of the string (non-word). -/
def isWordOpt : Option Char → Bool
  | none => false
  | some c => isWordChar c

/-- Case-insensitive list prefix test (ASCII model of `re.IGNORECASE`
matching of an escaped literal). -/
def startsWithCI : List Char → List Char → Bool
  | _, [] => true
  | [], _ :: _ => false
  | a :: as, b :: bs => a.toLower == b.toLower && startsWithCI as bs

/-- Does the literal pattern `pat` match at the head of `l`, with a
`\b` word boundary required before the match when `startB` and after it
when `endB`? `prev` is the character preceding the window in the original
string.  Mirrors Python's `\b`: a boundary holds where word-character
status flips.  Matched text agrees with `pat` up to ASCII case, and case
never changes word-character status, so the pattern's own first and last
characters decide the boundary tests. -/
def boundedMatchAt (startB endB : Bool) (pat : List Char) (prev : Option Char)
    (l : List Char) : Bool :=
  match pat with
  | [] => false
  | p0 :: _ =>
    startsWithCI l pat &&
    (!startB || (isWordOpt prev != isWordChar p0)) &&
    (!endB || (isWordChar (pat.getLastD p0) != isWordOpt ((l.drop pat.length).head?)))

/-- Fuelled scanner for `re.sub` of a literal pattern with optional `\b`
anchors and empty replacement: scan left to right, delete each
(non-overlapping) match, resume after it.  Boundaries are judged against
the original text (`prev` carries the last original character).  Each
step consumes at least one character, so fuel equal to the input length
never runs out. -/
def reSubAux (startB endB : Bool) (pat : List Char) :
    Nat → Option Char → List Char → List Char
  | 0, _, l => l
  | _, _, [] => []
  | fuel + 1, prev, c :: cs =>
    if boundedMatchAt startB endB pat prev (c :: cs) then
      reSubAux startB endB pat fuel
        (some (((c :: cs).take pat.length).getLastD c))
        ((c :: cs).drop pat.length)
    else c :: reSubAux startB endB pat fuel (some c) cs

/-- `re.sub` of an escaped literal `pat` with empty replacement and
`re.IGNORECASE`; `startB`/`endB` select the `\b` anchors.  An empty
pattern (`\b\b` with empty replacement) never changes the string. -/
def reSubLit (startB : Bool) (pat : String) (endB : Bool) (s : String) : String :=
  if pat.data.isEmpty then s
  else ⟨reSubAux startB endB pat.data s.data.length none s.data⟩

/-- The mention-stripping loop of `_should_respond` (cases 2 and 3):
`re.sub(rf"\b{re.escape(mention)}\b", "", question, flags=re.IGNORECASE)`
over every configured mention, then `strip()`. -/
def removeMentionsWordBounded (body : String) (mentions : List String) : String :=
  pyStrip (mentions.foldl (fun q m => reSubLit true m true q) body)

/-- Fuelled scanner for `re.sub(r'\s+', ' ', s)`: each maximal whitespace
run collapses to a single space. -/
def collapseWsAux : Nat → List Char → List Char
  | 0, l => l
  | _, [] => []
  | fuel + 1, c :: cs =>
    if isPySpace c then ' ' :: collapseWsAux fuel (cs.dropWhile isPySpace)
    else c :: collapseWsAux fuel cs

/-- `re.sub(r'\s+', ' ', s)`. -/
def collapseWs (s : String) : String :=
  ⟨collapseWsAux s.data.length s.data⟩

/-- `_clean_reply_content(message_body, bot_mentions)` from
src/src/bot.py: for an `@`-prefixed mention first apply the pattern
`@rest\b` (which textually equals the mention, without a leading `\b`),
then for every mention the pattern `\bmention\b`; drop quoted lines; and
normalize whitespace. -/
def cleanReplyContent (body : String) (mentions : List String) : String :=
  let cleaned := mentions.foldl
    (fun cl m =>
      let cl := if startsWithL m.data ['@'] then reSubLit false m true cl else cl
      reSubLit true m true cl)
    body
  let cleaned := dropQuoteLines cleaned
  pyStrip (collapseWs cleaned)

/-- A Matrix room event as the engagement engine sees it: the nio
`RoomMessageText` fields `event_id`, `sender`, `body`, `formatted_body`,
`server_timestamp`, plus the reply relation read from
`source['content']['m.relates_to']['m.in_reply_to']['event_id']`.
`isText`/`typeName` model the `isinstance(event, RoomMessageText)`
dispatch on fetched events (ids are opaque non-empty strings, so the
Python truthiness test on an event id is modelled by `Option`). -/
structure MsgEvent where
  eventId : String
  sender : String
  body : String
  formattedBody : Option String := none
  replyTo : Option String := none
  serverTimestamp : Option Nat := none
  isText : Bool := true
  typeName : String := "RoomMessageText"
deriving DecidableEq, Repr

/-- One collected thread message of `_get_thread_context` (the dict with
keys `content`, `event_id`, `sender`, `is_bot_message`). -/
structure ThreadMsg where
  content : String
  eventId : String
  sender : String
  isBotMessage : Bool
deriving DecidableEq, Repr

/-- The validated values of `BOT_REPLY_BEHAVIOR`. -/
inductive ReplyBehavior
  | ignore
  | mention
  | watch
deriving DecidableEq, Repr

/-- The configuration knobs the engagement engine reads.
`botThreadDepthLimit` is modelled from the spec: src/src/config.py does
not define `bot_thread_depth_limit` (only tests of another revision of
the configuration read it, with default 6); the spec lists the
reply-chain depth limit among the configuration knobs the core depends
on. -/
structure Config where
  botMentions : List String
  botReplyBehavior : ReplyBehavior
  botThreadDepthLimit : Nat := 6
  botRateLimitSeconds : Int := 1
deriving DecidableEq, Repr

/-- The engagement decision: the tuple
`(question_with_context, should_respond, reply_to_event_id)` returned by
`_should_respond`. -/
structure Decision where
  question : Option String
  respond : Bool
  replyTarget : Option String
deriving DecidableEq, Repr

/-- The external fetch interface `room_get_event`: `none` models a
failed fetch (a non-`RoomGetEventResponse` result or a raised
exception). -/
abbrev Fetch := String → Option MsgEvent

/-- The fetch that always fails. -/
def failFetch : Fetch := fun _ => none

/-- The content a fetched event contributes: the body of a text message,
or the bracketed placeholder built from the event type. -/
def eventContent (ev : MsgEvent) : String :=
  if ev.isText then ev.body
  else "[" ++ ev.typeName ++ " - content not accessible as text]"

/-- The traversal loop of `_get_thread_context`, in visit order (newest
first): follow `reply_to` links while an id is present, the depth bound
is not exhausted, and fetching succeeds. -/
def threadVisit (fetch : Fetch) (botIds : List String) :
    Nat → Option String → List ThreadMsg
  | 0, _ => []
  | _ + 1, none => []
  | fuel + 1, some id =>
    match fetch id with
    | none => []
    | some ev =>
      { content := eventContent ev
        eventId := id
        sender := ev.sender
        isBotMessage := botIds.contains id } ::
      threadVisit fetch botIds fuel ev.replyTo

/-- `_get_thread_context(room, event_id, max_depth)` from
src/src/bot.py: collect up to `max_depth` messages following the reply
links, then reverse into chronological (oldest-first) order. -/
def getThreadContext (fetch : Fetch) (botIds : List String)
    (eventId : String) (maxDepth : Nat) : List ThreadMsg :=
  (threadVisit fetch botIds maxDepth (some eventId)).reverse

/-- The replied-to content assembled by `_should_respond` (lines
390-409): the fetched ancestor's content, or the retrieval placeholder
on fetch failure. -/
def repliedToContentOf (fetch : Fetch) (origId : String) : String :=
  match fetch origId with
  | some oev => eventContent oev
  | none => "[Original message could not be retrieved]"

/-- `_should_respond(room, event)` from src/src/bot.py: the engagement
decision state machine over reply status, the bot-message registry, the
configured reply behavior and mention detection. -/
def shouldRespond (cfg : Config) (botIds : List String) (fetch : Fetch)
    (ev : MsgEvent) : Decision :=
  let messageBody := pyStrip ev.body
  let mentioned := checkMessageMentionsBot messageBody cfg.botMentions ev.formattedBody
  match ev.replyTo with
  | some origId =>
    let repliedToContent := repliedToContentOf fetch origId
    if botIds.contains origId then
      match cfg.botReplyBehavior with
      | .ignore => ⟨none, false, none⟩
      | .mention =>
        if !mentioned then ⟨none, false, none⟩
        else
          let cleanedBody := cleanReplyContent messageBody cfg.botMentions
          ⟨some ("Original message: " ++ repliedToContent ++ "\n\nReply: " ++ cleanedBody),
            true, some ev.eventId⟩
      | .watch =>
        let cleanedBody := cleanReplyContent messageBody cfg.botMentions
        let threadMessages := getThreadContext fetch botIds origId cfg.botThreadDepthLimit
        if threadMessages != [] then
          let contextParts := threadMessages.enum.map fun p =>
            let senderLabel := if p.2.isBotMessage then "Bot" else "User"
            "Message " ++ toString (p.1 + 1) ++ " (" ++ senderLabel ++ "): " ++ p.2.content
          let contextParts := contextParts ++ ["Current reply: " ++ cleanedBody]
          ⟨some (joinSep "\n\n" contextParts), true, some ev.eventId⟩
        else
          ⟨some ("Original message: " ++ repliedToContent ++ "\n\nReply: " ++ cleanedBody),
            true, some ev.eventId⟩
    else
      if mentioned then
        let question := removeMentionsWordBounded messageBody cfg.botMentions
        ⟨some ("Original message: " ++ repliedToContent ++ "\n\nReply: " ++ question),
          true, some ev.eventId⟩
      else ⟨none, false, none⟩
  | none =>
    if mentioned then
      let question := removeMentionsWordBounded messageBody cfg.botMentions
      if question != "" then ⟨some question, true, some ev.eventId⟩
      else ⟨none, false, none⟩
    else ⟨none, false, none⟩

/-- The process-wide mutable state of `AskaosusBot` that
`message_callback` reads and writes: the debounce timestamp
`last_message_time`, the bot message registry `bot_message_ids`, and
`start_time`. -/
structure BotState where
  lastMessageTime : Int
  botMessageIds : List String
  startTime : Option Nat
deriving DecidableEq, Repr

/-- Python truthiness of an optional integer (`None` and `0` are falsy). -/
def natTruthy : Option Nat → Bool
  | none => false
  | some n => n != 0

/-- Python truthiness of an optional string (`None` and the empty
string are falsy), as used by `if should_respond and question:`. -/
def pyTruthyStr : Option String → Bool
  | some q => q != ""
  | none => false

/-- Per-event inputs of `message_callback` beyond the event itself: the
event-loop clock reading, and the `event_id` of the answer message
returned by `room_send` (`none` when the response has no truthy
`event_id`). -/
structure CallbackInput where
  ev : MsgEvent
  currentTime : Int
  sendResultId : Option String
deriving DecidableEq, Repr

/-- The recency gate of `message_callback` (lines 224-227): drop
messages timestamped before the recorded start time, under Python
truthiness of both values. -/
def recencyDrop (st : BotState) (ev : MsgEvent) : Bool :=
  natTruthy st.startTime && natTruthy ev.serverTimestamp &&
    decide (ev.serverTimestamp.getD 0 < st.startTime.getD 0)

/-- `message_callback(room, event)` from src/src/bot.py, as a state
transition: the own-message, non-text, recency and rate gates in order,
then the engagement decision; on a respond decision with a truthy
question the debounce timestamp is set and the sent answer's id is
registered. -/
def messageCallback (cfg : Config) (botUserId : String) (fetch : Fetch)
    (st : BotState) (inp : CallbackInput) : BotState :=
  if inp.ev.sender == botUserId then st
  else if !inp.ev.isText then st
  else if recencyDrop st inp.ev then st
  else if inp.currentTime - st.lastMessageTime < cfg.botRateLimitSeconds then st
  else
    let d := shouldRespond cfg st.botMessageIds fetch inp.ev
    if d.respond && pyTruthyStr d.question then
      let st1 : BotState := { st with lastMessageTime := inp.currentTime }
      match inp.sendResultId with
      | some rid =>
        if rid != "" then { st1 with botMessageIds := st1.botMessageIds ++ [rid] }
        else st1
      | none => st1
    else st

/-- The four gates of `message_callback` that precede the engagement
decision: own message, non-text event, recency drop, rate-limit drop —
a message passes when none of them fires. -/
def passesGates (cfg : Config) (botUserId : String) (st : BotState)
    (inp : CallbackInput) : Bool :=
  !(inp.ev.sender == botUserId) && inp.ev.isText && !(recencyDrop st inp.ev) &&
  !(decide (inp.currentTime - st.lastMessageTime < cfg.botRateLimitSeconds))

/-- The condition under which `message_callback` actually handles a
message: the engagement decision is Respond with a truthy question. -/
def respondsWithQuestion (cfg : Config) (botIds : List String) (fetch : Fetch)
    (ev : MsgEvent) : Bool :=
  (shouldRespond cfg botIds fetch ev).respond &&
    pyTruthyStr (shouldRespond cfg botIds fetch ev).question

/-- The default mention configuration (`BOT_MENTIONS` default
`@askaosus,askaosus`) with the default `mention` reply behavior. -/
def cfgMention : Config :=
  { botMentions := ["@askaosus", "askaosus"], botReplyBehavior := .mention }

/-- The default mention configuration with `watch` reply behavior. -/
def cfgWatch : Config :=
  { botMentions := ["@askaosus", "askaosus"], botReplyBehavior := .watch }

/-- Scenario A: a direct (non-reply) mention message. -/
def evA : MsgEvent :=
  { eventId := "$a1", sender := "@user:example.org",
    body := "@askaosus How do I install Ubuntu?" }

/-- Scenario D: a non-reply message whose body is exactly a configured
mention. -/
def evD : MsgEvent :=
  { eventId := "$d1", sender := "@user:example.org", body := "askaosus" }

/-- Scenario B: a user reply (no mention) to the registered bot message
`$X`. -/
def evB : MsgEvent :=
  { eventId := "$r1", sender := "@user:example.org",
    body := "That did not work", replyTo := some "$X" }

/-- The room history behind scenario B: the bot message `$X` answers the
user message `$W`. -/
def fetchB : Fetch := fun id =>
  if id = "$X" then
    some { eventId := "$X", sender := "@askaosus:example.org",
           body := "You can try the LTS image.", replyTo := some "$W" }
  else if id = "$W" then
    some { eventId := "$W", sender := "@user:example.org",
           body := "How do I install Ubuntu?" }
  else none

/-- A mentioned reply to a non-bot message, used with a failing fetch. -/
def evW : MsgEvent :=
  { eventId := "$w1", sender := "@user:example.org",
    body := "@askaosus it failed", replyTo := some "$o" }

/-- The cyclic reply graph `A → B → C → A`. -/
def cycFetch : Fetch := fun id =>
  if id = "A" then
    some { eventId := "A", sender := "@u:example.org", body := "message A",
           replyTo := some "B" }
  else if id = "B" then
    some { eventId := "B", sender := "@u:example.org", body := "message B",
           replyTo := some "C" }
  else if id = "C" then
    some { eventId := "C", sender := "@u:example.org", body := "message C",
           replyTo := some "A" }
  else none

/-- The id of the `n`-th message of the linear 50-message chain. -/
def mId (n : Nat) : String :=
  "m" ++ toString n

/-- A linear reply chain of length 50: `m0` replies to `m1`, which
replies to `m2`, …, and `m49` is the root. -/
def linFetch : Fetch := fun id =>
  (List.range 50).findSome? fun n =>
    if id = mId n then
      some { eventId := mId n, sender := "@u:example.org",
             body := "hop " ++ toString n,
             replyTo := if n + 1 < 50 then some (mId (n + 1)) else none }
    else none

/-- An initial bot state for concrete runs of `message_callback`. -/
def stW : BotState :=
  { lastMessageTime := 0, botMessageIds := [], startTime := none }

/-- A concrete callback input: the unmentioned reply `evB` arriving at
clock time 100 (registry empty, so it is a reply to a non-bot message
and the decision is Ignore under mention mode). -/
def inpW : CallbackInput :=
  { ev := evB, currentTime := 100, sendResultId := none }

/-! ## Helper lemmas -/

theorem containsSubL_nilPat (l : List Char) : containsSubL [] l = true := by
  cases l <;> simp [containsSubL, startsWithL, List.isEmpty]

theorem startsWithL_extend :
    ∀ (p l y : List Char), startsWithL l p = true → startsWithL (l ++ y) p = true := by
  intro p
  induction p with
  | nil => intro l y _; cases l ++ y <;> rfl
  | cons b bs ih =>
    intro l y h
    cases l with
    | nil => simp [startsWithL] at h
    | cons a as =>
      simp only [startsWithL, Bool.and_eq_true] at h
      simp only [List.cons_append, startsWithL, Bool.and_eq_true]
      exact ⟨h.1, ih as y h.2⟩

theorem containsSubL_extend (p : List Char) :
    ∀ (x y : List Char), containsSubL p x = true → containsSubL p (x ++ y) = true := by
  intro x
  induction x with
  | nil =>
    intro y h
    simp only [containsSubL, List.isEmpty_iff] at h
    subst h
    simpa using containsSubL_nilPat y
  | cons a as ih =>
    intro y h
    simp only [containsSubL, Bool.or_eq_true] at h ⊢
    rcases h with h | h
    · exact Or.inl (by simpa using startsWithL_extend p (a :: as) y h)
    · exact Or.inr (ih y h)

theorem strContains_append_left (x y p : String) (h : strContains x p = true) :
    strContains (x ++ y) p = true := by
  have h2 := containsSubL_extend p.data x.data y.data h
  simpa [strContains, String.data_append] using h2

theorem threadVisit_length_le (fetch : Fetch) (botIds : List String) :
    ∀ (fuel : Nat) (o : Option String), (threadVisit fetch botIds fuel o).length ≤ fuel := by
  intro fuel
  induction fuel with
  | zero => intro o; simp [threadVisit]
  | succ n ih =>
    intro o
    cases o with
    | none => simp [threadVisit]
    | some id =>
      cases hf : fetch id with
      | none => simp [threadVisit, hf]
      | some ev =>
        simp only [threadVisit, hf, List.length_cons]
        exact Nat.succ_le_succ (ih ev.replyTo)

theorem threadVisit_failFetch (botIds : List String) (fuel : Nat) (o : Option String) :
    threadVisit failFetch botIds fuel o = [] := by
  cases fuel with
  | zero => rfl
  | succ n => cases o <;> simp [threadVisit, failFetch]

theorem getThreadContext_failFetch (botIds : List String) (id : String) (d : Nat) :
    getThreadContext failFetch botIds id d = [] := by
  simp [getThreadContext, threadVisit_failFetch]

theorem getThreadContext_none_start (fetch : Fetch) (botIds : List String)
    (id : String) (d : Nat) (hf : fetch id = none) :
    getThreadContext fetch botIds id d = [] := by
  cases d with
  | zero => rfl
  | succ n => simp [getThreadContext, threadVisit, hf]

theorem threadVisit_head_eventId (fetch : Fetch) (botIds : List String)
    (fuel : Nat) (o : Option String) (t : ThreadMsg)
    (h : (threadVisit fetch botIds fuel o).head? = some t) :
    ∃ id2, o = some id2 ∧ t.eventId = id2 := by
  cases fuel with
  | zero => simp [threadVisit] at h
  | succ n =>
    cases o with
    | none => simp [threadVisit] at h
    | some id =>
      cases hf : fetch id with
      | none => simp [threadVisit, hf] at h
      | some ev =>
        simp only [threadVisit, hf, List.head?_cons, Option.some.injEq] at h
        exact ⟨id, rfl, by rw [← h]⟩

theorem threadVisit_chain (fetch : Fetch) (botIds : List String) :
    ∀ (fuel : Nat) (o : Option String),
      List.Chain'
        (fun a c => ∃ ev, fetch a.eventId = some ev ∧ ev.replyTo = some c.eventId)
        (threadVisit fetch botIds fuel o) := by
  intro fuel
  induction fuel with
  | zero => intro o; simp [threadVisit]
  | succ n ih =>
    intro o
    cases o with
    | none => simp [threadVisit]
    | some id =>
      cases hf : fetch id with
      | none => simp [threadVisit, hf]
      | some ev =>
        simp only [threadVisit, hf]
        refine List.chain'_cons'.mpr ⟨?_, ih ev.replyTo⟩
        intro t ht
        obtain ⟨id2, ho, hei⟩ := threadVisit_head_eventId fetch botIds n ev.replyTo t ht
        exact ⟨ev, hf, by rw [ho, hei]⟩

/-! ## Claim theorems -/

/-- C1: the claim states mention detection is whole-word, so that a
configured mention occurring only inside a longer alphanumeric token is
not detected.  The code evaluated at the failing input: for the mention
`askaosus` and the text `Please use askaosusbot for help` (where the
mention occurs only inside the longer token `askaosusbot`),
`_check_message_mentions_bot` nevertheless reports a mention, because
line 569 of src/src/bot.py tests case-insensitive substring containment
with no word-boundary check. -/
theorem C1_substring_match_inside_longer_token :
    checkMessageMentionsBot "Please use askaosusbot for help" ["askaosus"] none = true := by
  decide

/-- C2 (counterexample): on the cyclic reply graph `A → B → C → A` with
`max_depth = 6`, the resolver revisits ids — the returned ids are not
pairwise distinct and the chain is longer than 3 — refuting the claim
that resolution never visits the same message id twice. -/
theorem C2_cycle_ids_revisited :
    ¬ ((getThreadContext cycFetch [] "A" 6).map fun t => t.eventId).Nodup ∧
    (getThreadContext cycFetch [] "A" 6).length = 6 := by
  constructor
  · decide
  · decide

/-- C2 (amended): reply-chain resolution terminates on every reply
graph because the depth bound alone limits the chain to at most
`max_depth` messages, but it performs no cycle detection and may
revisit ids: on the 3-cycle `A → B → C → A` with `max_depth = 6` it
returns six messages, visiting each of the three ids twice. -/
theorem C2_termination_by_depth_bound_only :
    (∀ (fetch : Fetch) (botIds : List String) (id : String) (d : Nat),
      (getThreadContext fetch botIds id d).length ≤ d) ∧
    ((getThreadContext cycFetch [] "A" 6).map fun t => t.eventId) =
      ["C", "B", "A", "C", "B", "A"] := by
  constructor
  · intro fetch botIds id d
    simpa [getThreadContext] using threadVisit_length_le fetch botIds d (some id)
  · decide

/-- C3 (counterexample): on a linear reply chain of length 50 with
`max_depth = 6`, the resolver does not return 7 messages, refuting the
claim that the depth bound counts fetched ancestors in addition to the
start message. -/
theorem C3_not_seven_messages :
    (getThreadContext linFetch [] "m0" 6).length ≠ 7 := by
  decide

/-- C3 (amended): the depth bound counts collected messages including
the start: for a linear reply chain of length 50 and `max_depth = 6`,
`_get_thread_context` returns exactly 6 messages — the start message
`m0` plus its first five ancestors, oldest first. -/
theorem C3_depth_bound_counts_start_message :
    (getThreadContext linFetch [] "m0" 6).length = 6 ∧
    ((getThreadContext linFetch [] "m0" 6).map fun t => t.eventId) =
      ["m5", "m4", "m3", "m2", "m1", "m0"] := by
  constructor
  · decide
  · decide

/-- C4 (counterexample): for the non-reply message whose body is exactly
the configured mention `askaosus`, the decision is not Respond — the
engagement policy returns Ignore, refuting the claim that a "mention
only" sentinel is substituted. -/
theorem C4_mention_only_not_answered :
    (shouldRespond cfgMention [] failFetch evD).respond = false ∧
    (shouldRespond cfgMention [] failFetch evD).question = none := by
  constructor
  · decide
  · decide

/-- C4 (amended): when mention stripping leaves an empty string for a
non-reply message, `_should_respond` falls through its `if question:`
guard and returns Ignore (no question, no reply target); no sentinel
placeholder is substituted.  The outcome is independent of the fetch
interface because no fetch happens for a non-reply message. -/
theorem C4_empty_question_ignored :
    ∀ fetch : Fetch, shouldRespond cfgMention [] fetch evD = ⟨none, false, none⟩ :=
  fun _ => rfl

/-- C5 (counterexample): for the non-reply message
`@askaosus How do I install Ubuntu?` under the default mentions
`{@askaosus, askaosus}`, the produced context is not the claimed
`How do I install Ubuntu?`. -/
theorem C5_context_keeps_marker :
    (shouldRespond cfgMention [] failFetch evA).question ≠
      some "How do I install Ubuntu?" := by
  decide

/-- C5 (amended): for scenario A the decision is Respond with reply
target equal to the message id, but the context is
`@ How do I install Ubuntu?`: the pattern `\b@askaosus\b` cannot match
at the start of the string (no word character precedes the `@`), so
only the bare mention `askaosus` is removed and the marker character
survives; the final `strip()` trims only whitespace. -/
theorem C5_scenario_a_leftover_marker :
    ∀ fetch : Fetch,
      shouldRespond cfgMention [] fetch evA =
        ⟨some "@ How do I install Ubuntu?", true, some "$a1"⟩ :=
  fun _ => rfl

/-- C6 (counterexample): in watch mode, replying to the registered bot
message `$X` (whose resolved chain has two messages), the produced
context does not contain — in particular does not begin with — the
claimed literal header line `Conversation thread:`. -/
theorem C6_no_thread_header :
    strContains ((shouldRespond cfgWatch ["$X"] fetchB evB).question.getD "")
      "Conversation thread:" = false := by
  decide

/-- C6 (amended): in watch mode, for a reply to a message in the bot
message registry, the decision is Respond and the context lists the
resolved chain as lines `Message i (Bot): …` / `Message i (User): …`
(labelled by registry membership) joined by blank lines — with no
`Conversation thread:` header — and ends with the trailing line
`Current reply: <stripped current message>`; the reply target is the
current message id. -/
theorem C6_watch_context_format :
    shouldRespond cfgWatch ["$X"] fetchB evB =
      ⟨some ("Message 1 (User): How do I install Ubuntu?\n\n" ++
             "Message 2 (Bot): You can try the LTS image.\n\n" ++
             "Current reply: That did not work"),
        true, some "$r1"⟩ := by
  decide

/-- C7: mention detection operates on visible content only: for the
body `> @askaosus help` + blank line + `I also need this`, whose
mention occurs only in the quoted line, `_check_message_mentions_bot`
reports no mention — both without a formatted body (the quoted line is
dropped before matching) and with `formatted_body = "I also need
this"` (the rendering that structurally excludes the quote is
preferred). -/
theorem C7_quoted_mention_excluded :
    checkMessageMentionsBot "> @askaosus help\n\nI also need this"
      cfgMention.botMentions none = false ∧
    checkMessageMentionsBot "> @askaosus help\n\nI also need this"
      cfgMention.botMentions (some "I also need this") = false := by
  constructor
  · decide
  · decide

/-- C8: context-enrichment failures never block engagement.  First,
whether the decision is Respond is independent of the fetch interface
(so no fetch failure or exception can flip Respond to Ignore).  Second,
for every reply handled under any fetch that fails at the replied-to
id, if the decision is Respond then the produced context contains the
placeholder `[Original message could not be retrieved]`. -/
theorem C8_fetch_failure_never_blocks :
    (∀ (cfg : Config) (botIds : List String) (f1 f2 : Fetch) (ev : MsgEvent),
      (shouldRespond cfg botIds f1 ev).respond =
        (shouldRespond cfg botIds f2 ev).respond) ∧
    (∀ (cfg : Config) (botIds : List String) (fetch : Fetch) (ev : MsgEvent)
      (origId : String),
      ev.replyTo = some origId →
      fetch origId = none →
      (shouldRespond cfg botIds fetch ev).respond = true →
      ∃ ctx, (shouldRespond cfg botIds fetch ev).question = some ctx ∧
        strContains ctx "[Original message could not be retrieved]" = true) := by
  constructor
  · intro cfg botIds f1 f2 ev
    cases hr : ev.replyTo with
    | none => simp [shouldRespond, hr]
    | some origId =>
      cases hbeh : cfg.botReplyBehavior <;>
        by_cases hm : checkMessageMentionsBot (pyStrip ev.body) cfg.botMentions
            ev.formattedBody = true <;>
          simp [shouldRespond, hr, hbeh, hm, apply_ite Decision.respond]
  · intro cfg botIds fetch ev origId hr hf hresp
    by_cases hb : origId ∈ botIds
    · cases hbeh : cfg.botReplyBehavior with
      | ignore =>
        exfalso
        simp [shouldRespond, hr, hb, hbeh] at hresp
      | mention =>
        by_cases hm : checkMessageMentionsBot (pyStrip ev.body) cfg.botMentions
            ev.formattedBody = true
        · refine ⟨"Original message: [Original message could not be retrieved]\n\nReply: " ++
              cleanReplyContent (pyStrip ev.body) cfg.botMentions, ?_, ?_⟩
          · simp [shouldRespond, hr, hb, hbeh, hm, repliedToContentOf, hf]
          · exact strContains_append_left _ _ _ (by decide)
        · exfalso
          simp [shouldRespond, hr, hb, hbeh, hm] at hresp
      | watch =>
        refine ⟨"Original message: [Original message could not be retrieved]\n\nReply: " ++
            cleanReplyContent (pyStrip ev.body) cfg.botMentions, ?_, ?_⟩
        · simp [shouldRespond, hr, hb, hbeh, repliedToContentOf, hf,
            getThreadContext_none_start fetch botIds origId cfg.botThreadDepthLimit hf]
        · exact strContains_append_left _ _ _ (by decide)
    · by_cases hm : checkMessageMentionsBot (pyStrip ev.body) cfg.botMentions
          ev.formattedBody = true
      · refine ⟨"Original message: [Original message could not be retrieved]\n\nReply: " ++
            removeMentionsWordBounded (pyStrip ev.body) cfg.botMentions, ?_, ?_⟩
        · simp [shouldRespond, hr, hb, hm, repliedToContentOf, hf]
        · exact strContains_append_left _ _ _ (by decide)
      · exfalso
        simp [shouldRespond, hr, hb, hm] at hresp

/-- C8 (witness): for the mentioned reply `evW` to a non-registered
message, the Respond outcome agrees between the failing fetch and a
working fetch, and the failing-fetch context carries the retrieval
placeholder. -/
theorem C8_fetch_failure_witness :
    (shouldRespond cfgMention [] failFetch evW).respond =
      (shouldRespond cfgMention [] fetchB evW).respond ∧
    ∃ ctx, (shouldRespond cfgMention [] failFetch evW).question = some ctx ∧
      strContains ctx "[Original message could not be retrieved]" = true :=
  ⟨C8_fetch_failure_never_blocks.1 cfgMention [] failFetch fetchB evW,
   C8_fetch_failure_never_blocks.2 cfgMention [] failFetch evW "$o" rfl rfl (by decide)⟩

/-- C9: the resolved reply chain is the reverse of the newest-first
visit order (so it is returned oldest first regardless of traversal
direction), and consecutive elements are linked: in every resolved
chain of length at least 2, every element after the first corresponds
to an event that exists under `fetch` and whose declared reply target
is exactly the id of the immediately preceding element. -/
theorem C9_oldest_first_linked_chain :
    ∀ (fetch : Fetch) (botIds : List String) (id : String) (d : Nat),
      getThreadContext fetch botIds id d =
        (threadVisit fetch botIds d (some id)).reverse ∧
      List.Chain'
        (fun a c => ∃ ev, fetch c.eventId = some ev ∧ ev.replyTo = some a.eventId)
        (getThreadContext fetch botIds id d) := by
  intro fetch botIds id d
  refine ⟨rfl, ?_⟩
  show List.Chain' _ (threadVisit fetch botIds d (some id)).reverse
  rw [List.chain'_reverse]
  exact threadVisit_chain fetch botIds d (some id)

/-- Characterization of the debounce timestamp after one run of
`message_callback`: it becomes the arrival clock reading exactly when
all four gates pass and the decision is Respond with a truthy question,
and is left unchanged otherwise. -/
theorem messageCallback_lastTime (cfg : Config) (uid : String) (fetch : Fetch)
    (st : BotState) (inp : CallbackInput) :
    (messageCallback cfg uid fetch st inp).lastMessageTime =
      if (passesGates cfg uid st inp &&
          respondsWithQuestion cfg st.botMessageIds fetch inp.ev) = true
      then inp.currentTime else st.lastMessageTime := by
  by_cases h1 : (inp.ev.sender == uid) = true
  · simp [messageCallback, passesGates, h1]
  · by_cases h2 : inp.ev.isText = true
    · by_cases h3 : recencyDrop st inp.ev = true
      · simp [messageCallback, passesGates, h1, h2, h3]
      · by_cases h4 : inp.currentTime - st.lastMessageTime < cfg.botRateLimitSeconds
        · simp [messageCallback, passesGates, h1, h2, h3, h4]
        · by_cases h5 : ((shouldRespond cfg st.botMessageIds fetch inp.ev).respond &&
              pyTruthyStr (shouldRespond cfg st.botMessageIds fetch inp.ev).question) = true
          · cases hs : inp.sendResultId with
            | none =>
              simp [messageCallback, passesGates, respondsWithQuestion,
                h1, h2, h3, h4, h5, hs]
            | some rid =>
              by_cases hrid : rid = "" <;>
                simp [messageCallback, passesGates, respondsWithQuestion,
                  h1, h2, h3, h4, h5, hs, hrid]
          · simp [messageCallback, passesGates, respondsWithQuestion,
              h1, h2, h3, h4, h5]
    · simp [messageCallback, passesGates, h1, h2]

/-- C10: the debounce timestamp `last_message_time` changes only on
messages that pass the own-message, text, recency and rate gates and
whose decision is Respond with a truthy question — in which case it is
set to the arrival clock reading; every other message (gated, ignored,
or responding without a question) leaves the debounce state unchanged,
so ignored traffic never extends the rate-limit window. -/
theorem C10_debounce_updated_only_on_respond :
    ∀ (cfg : Config) (botUserId : String) (fetch : Fetch) (st : BotState)
      (inp : CallbackInput),
      ((passesGates cfg botUserId st inp &&
          respondsWithQuestion cfg st.botMessageIds fetch inp.ev) = false →
        (messageCallback cfg botUserId fetch st inp).lastMessageTime =
          st.lastMessageTime) ∧
      ((passesGates cfg botUserId st inp &&
          respondsWithQuestion cfg st.botMessageIds fetch inp.ev) = true →
        (messageCallback cfg botUserId fetch st inp).lastMessageTime =
          inp.currentTime) := by
  intro cfg botUserId fetch st inp
  constructor
  · intro h
    simp [messageCallback_lastTime, h]
  · intro h
    simp [messageCallback_lastTime, h]

/-- C10 (witness): the concrete unmentioned reply `inpW` passes the
gates but resolves to Ignore, and indeed leaves the debounce timestamp
of `stW` unchanged. -/
theorem C10_debounce_witness :
    (passesGates cfgMention "@askaosus:example.org" stW inpW &&
      respondsWithQuestion cfgMention stW.botMessageIds failFetch inpW.ev) = false ∧
    (messageCallback cfgMention "@askaosus:example.org" failFetch stW inpW).lastMessageTime =
      stW.lastMessageTime :=
  ⟨by decide,
   (C10_debounce_updated_only_on_respond cfgMention "@askaosus:example.org"
      failFetch stW inpW).1 (by decide)⟩

end Askaosus
